import Mathlib

/-!
A shallow embedding of the report-generation pipeline of the hsc_study_app
backend (src/backend/src/backend.py): the attempt formatter
`format_attempts_for_ai`, the generation-client adapter
`generate_ai_response`, and the `/generate-report` orchestrator
`generate_report` with its deterministic fallback report.

Python values that may occur inside an attempt dict are modelled by
`PyVal`; an attempt record is a Python dict with string keys, modelled as
an association list; a Python exception escaping a function is modelled by
`Except.error` carrying the exception class name.
-/

inductive PyVal : Type where
  | none : PyVal
  | str : String → PyVal
  | int : Int → PyVal
  | bool : Bool → PyVal
  | list : List PyVal → PyVal
  | dict : List (String × PyVal) → PyVal

/-- An attempt record as received by the `/generate-report` endpoint: a
JSON object, i.e. a Python dict with string keys. -/
abbrev Attempt := List (String × PyVal)

/-- Python truthiness `bool(v)` for the modelled values. -/
def truthy : PyVal → Bool
  | PyVal.none => false
  | PyVal.str s => s != ""
  | PyVal.int n => n != 0
  | PyVal.bool b => b
  | PyVal.list xs => !xs.isEmpty
  | PyVal.dict d => !d.isEmpty

/-- Python equality between a value and a string literal, as in
`attempt.get('error_type') == 'silly'`: true exactly for the equal string. -/
def pyEqStr : PyVal → String → Bool
  | PyVal.str t, s => t == s
  | _, _ => false

/-- First binding of a key in an association list; Python dict keys are
unique, so first-match lookup is dict lookup. -/
def lookupKey : List (String × PyVal) → String → Option PyVal
  | [], _ => Option.none
  | (k, v) :: rest, key => if k == key then Option.some v else lookupKey rest key

/-- Python `d.get(key, default)` on a dict. -/
def dGet (d : List (String × PyVal)) (key : String) (default : PyVal) : PyVal :=
  match lookupKey d key with
  | Option.some v => v
  | Option.none => default

/-- Python `v.get(key, default)` on an arbitrary value: only a dict has a
`get` attribute, every other value raises `AttributeError`. -/
def valGet (v : PyVal) (key : String) (default : PyVal) : Except String PyVal :=
  match v with
  | PyVal.dict d => Except.ok (dGet d key default)
  | _ => Except.error "AttributeError"

mutual

/-- Python `repr` of a modelled value (the escaping Python applies inside
the quotes of a string repr is not modelled: the text is emitted verbatim). -/
def pyRepr : PyVal → String
  | PyVal.none => "None"
  | PyVal.str s => "'" ++ s ++ "'"
  | PyVal.int n => toString n
  | PyVal.bool b => if b then "True" else "False"
  | PyVal.list xs => "[" ++ String.intercalate ", " (pyReprList xs) ++ "]"
  | PyVal.dict d => "\x7b" ++ String.intercalate ", " (pyReprEntries d) ++ "\x7d"

/-- Python `repr` of each element of a list. -/
def pyReprList : List PyVal → List String
  | [] => []
  | v :: vs => pyRepr v :: pyReprList vs

/-- Python `repr` of each `key: value` entry of a dict. -/
def pyReprEntries : List (String × PyVal) → List String
  | [] => []
  | (k, v) :: rest => ("'" ++ k ++ "': " ++ pyRepr v) :: pyReprEntries rest

end

/-- Python `str(v)`, the conversion f-string interpolation applies. -/
def pyStr : PyVal → String
  | PyVal.str s => s
  | v => pyRepr v

/-- The loop guard of `format_attempts_for_ai` (backend.py line 125):
`attempt.get('error_type') and attempt['error_type'] != 'none'`. -/
def includeAttempt (attempt : Attempt) : Bool :=
  truthy (dGet attempt "error_type" PyVal.none) &&
    !(pyEqStr (dGet attempt "error_type" PyVal.none) "none")

/-- Line 126, `attempt.get('question', \x7b\x7d).get('topic', 'Unknown')`:
raises `AttributeError` when the `question` key holds a non-dict value. -/
def attemptTopic (attempt : Attempt) : Except String PyVal :=
  valGet (dGet attempt "question" (PyVal.dict [])) "topic" (PyVal.str "Unknown")

/-- Line 127, `attempt.get('error_type', 'Unknown')`. -/
def attemptErrorType (attempt : Attempt) : PyVal :=
  dGet attempt "error_type" (PyVal.str "Unknown")

/-- Line 128, `attempt.get('explanation', 'No explanation provided')`. -/
def attemptExplanation (attempt : Attempt) : PyVal :=
  dGet attempt "explanation" (PyVal.str "No explanation provided")

/-- Line 129, `attempt.get('question_id', 'Unknown')`. -/
def attemptQuestionId (attempt : Attempt) : PyVal :=
  dGet attempt "question_id" (PyVal.str "Unknown")

/-- The f-string block appended for one qualifying attempt (backend.py
lines 131-136): a leading newline, the four labelled lines, a trailing
newline. -/
def attemptBlock (attempt : Attempt) : Except String String :=
  match attemptTopic attempt with
  | Except.error e => Except.error e
  | Except.ok topic =>
      Except.ok ("\nTopic - " ++ pyStr topic ++
        "\nMistake Type - " ++ pyStr (attemptErrorType attempt) ++
        "\nExplanation - " ++ pyStr (attemptExplanation attempt) ++
        "\nQuestion ID - " ++ pyStr (attemptQuestionId attempt) ++ "\n")

/-- The `formatted_attempts` list built by the loop of
`format_attempts_for_ai` (lines 122-136); an exception raised in an
iteration propagates. -/
def formatBlocks : List Attempt → Except String (List String)
  | [] => Except.ok []
  | attempt :: rest =>
    if includeAttempt attempt then
      match attemptBlock attempt with
      | Except.error e => Except.error e
      | Except.ok block =>
        match formatBlocks rest with
        | Except.error e => Except.error e
        | Except.ok blocks => Except.ok (block :: blocks)
    else formatBlocks rest

/-- The fixed sentence returned when no attempt qualifies (line 139). -/
def no_mistakes_message : String :=
  "No mistakes found in the provided attempts. All questions were answered correctly!"

/-- The formatter `format_attempts_for_ai(attempts)` (backend.py lines
120-141). -/
def format_attempts_for_ai (attempts : List Attempt) : Except String String :=
  match formatBlocks attempts with
  | Except.error e => Except.error e
  | Except.ok blocks =>
    if blocks.isEmpty then Except.ok no_mistakes_message
    else Except.ok (String.intercalate "\n" blocks)

/-- The external Bedrock runtime client, abstracted to the one method the
code uses: `converse(modelId, messages)` either returns a response value
or raises. -/
structure BedrockClient where
  converse : String → PyVal → Except String PyVal

/-- The default `model_id` parameter of `generate_ai_response` (line 95). -/
def default_model_id : String := "amazon.nova-pro-v1:0"

/-- The `messages` list built by `generate_ai_response` (lines 101-106): a
single user message whose sole content item is the text
`system_prompt + "\n\n" + "User: " + user_message`. -/
def buildMessages (system_prompt user_message : String) : PyVal :=
  PyVal.list [PyVal.dict [("role", PyVal.str "user"),
    ("content", PyVal.list [PyVal.dict [("text",
      PyVal.str (system_prompt ++ "\n\nUser: " ++ user_message))]])]]

/-- Python subscript `v[key]` with a string key: `KeyError` when the key
is absent, `TypeError` on a value that is not a dict. -/
def pySubscript (v : PyVal) (key : String) : Except String PyVal :=
  match v with
  | PyVal.dict d =>
    match lookupKey d key with
    | Option.some x => Except.ok x
    | Option.none => Except.error "KeyError"
  | _ => Except.error "TypeError"

/-- Python subscript `v[i]` with an integer index on a list. -/
def pyIndex (v : PyVal) (i : Nat) : Except String PyVal :=
  match v with
  | PyVal.list xs =>
    match xs.get? i with
    | Option.some x => Except.ok x
    | Option.none => Except.error "IndexError"
  | _ => Except.error "TypeError"

/-- The extraction `response['output']['message']['content'][0]['text']`
(line 113). -/
def extractText (response : PyVal) : Except String PyVal :=
  match pySubscript response "output" with
  | Except.error e => Except.error e
  | Except.ok output =>
  match pySubscript output "message" with
  | Except.error e => Except.error e
  | Except.ok message =>
  match pySubscript message "content" with
  | Except.error e => Except.error e
  | Except.ok content =>
  match pyIndex content 0 with
  | Except.error e => Except.error e
  | Except.ok first => pySubscript first "text"

/-- The client adapter `generate_ai_response(system_prompt, user_message,
model_id)` (backend.py lines 95-118): `PyVal.none` when no client is
configured and on any exception raised by the call or the extraction
(caught by the `try`/`except`), otherwise the extracted text value. -/
def generate_ai_response (bedrock : Option BedrockClient)
    (system_prompt user_message model_id : String) : PyVal :=
  match bedrock with
  | Option.none => PyVal.none
  | Option.some client =>
    match client.converse model_id (buildMessages system_prompt user_message) with
    | Except.error _ => PyVal.none
    | Except.ok response =>
      match extractText response with
      | Except.error _ => PyVal.none
      | Except.ok response_text => response_text

/-- Line 314: the generator-sum counting attempts with
`attempt.get('error_type') == 'silly'`. -/
def silly_mistakes (attempts : List Attempt) : Nat :=
  attempts.countP (fun attempt => pyEqStr (dGet attempt "error_type" PyVal.none) "silly")

/-- Line 315: likewise for `'concept'`. -/
def concept_errors (attempts : List Attempt) : Nat :=
  attempts.countP (fun attempt => pyEqStr (dGet attempt "error_type" PyVal.none) "concept")

/-- The fallback report f-string of `generate_report` (backend.py lines
317-333), as a function of the three interpolated integers. -/
def fallbackTemplate (total silly concept : Nat) : String :=
  "**Overall Summary:**\n" ++
  "Based on your recent practice sessions, you completed " ++
  toString total ++
  " questions. You made " ++
  toString silly ++
  " silly mistakes and " ++
  toString concept ++
  " concept errors.\n" ++
  "\n" ++
  "**Key Areas for Improvement:**\n" ++
  "- Focus on double-checking your work to avoid silly mistakes\n" ++
  "- Review fundamental concepts where you had difficulties\n" ++
  "- Practice more problems in topics where you made errors\n" ++
  "\n" ++
  "**General Advice:**\n" ++
  "• Take your time when working through problems\n" ++
  "• Show all working steps to catch errors early\n" ++
  "• Review your mistakes to understand what went wrong\n" ++
  "• Practice regularly to build confidence\n" ++
  "\n" ++
  "Remember: Every mistake is a learning opportunity. Keep practicing and you'll continue to improve!\n" ++
  "\n" ++
  "*Note: This is a basic report. For detailed AI analysis, please check your AWS Bedrock configuration.*"
/-- The fallback report computed by `generate_report` (lines 311-333):
the template with `len(request.attempts)`, `silly_mistakes` and
`concept_errors` interpolated. -/
def fallback_report (attempts : List Attempt) : String :=
  fallbackTemplate attempts.length (silly_mistakes attempts) (concept_errors attempts)

/-- The `system_prompt` literal of `generate_report` (backend.py lines
233-301), transcribed verbatim. -/
def system_prompt : String :=
  "\n" ++
  "You are an experienced mathematics tutor. Your role is to help students learn from their mistakes by analyzing their incorrect responses and providing targeted feedback.\n" ++
  "Please have a maximum of 250 words\n" ++
  "## Your Task\n" ++
  "\n" ++
  "When you receive student mistake data, you will:\n" ++
  "\n" ++
  "1. **Analyze the mistake patterns** across different topics and question types\n" ++
  "2. **Summarize key learning areas** that need attention\n" ++
  "3. **Create targeted bullet points** for each mistake to help students remember and avoid repeating errors\n" ++
  "4. **Provide constructive feedback**\n" ++
  "\n" ++
  "## Data Format You'll Receive\n" ++
  "\n" ++
  "The student mistake data will be formatted as:\n" ++
  "- **Question ID** - [number]\n" ++
  "- **Topic** - [Australian curriculum topic area]\n" ++
  "- **Mistake Type** - [silly mistake/concept error/etc.]\n" ++
  "- **Explanation** - [student's explanation of what went wrong]\n" ++
  "\n" ++
  "## Your Response Structure\n" ++
  "\n" ++
  "### 1. Overall Summary\n" ++
  "Provide a brief overview of the student's performance patterns, highlighting:\n" ++
  "- Main topic areas with difficulties\n" ++
  "- Types of mistakes (silly errors vs content gaps)\n" ++
  "- Overall learning priorities\n" ++
  "\n" ++
  "### 2. Topic-by-Topic Breakdown\n" ++
  "For each mathematical topic, create:\n" ++
  "\n" ++
  "**[Topic Name]:**\n" ++
  "- **Mistake Pattern**: [Brief description of what went wrong]\n" ++
  "- **Remember**: [Key point to prevent this mistake]\n" ++
  "- **Next Steps**: [Specific practice recommendation]\n" ++
  "\n" ++
  "### 3. Key Reminders\n" ++
  "Create memorable bullet points using:\n" ++
  "- **Silly Mistakes**: Focus on checking procedures and common traps\n" ++
  "- **Concept Errors**: Address fundamental concept gaps\n" ++
  "\n" ++
  "## Tone and Approach\n" ++
  "\n" ++
  "- **Encouraging**: Frame mistakes as learning opportunities\n" ++
  "- **Specific**: Give concrete, actionable advice\n" ++
  "- **Practical**: Provide strategies students can immediately apply\n" ++
  "- **Australian context**: Use familiar terminology and examples\n" ++
  "\n" ++
  "## Example Response Format\n" ++
  "\n" ++
  "**Overall Summary:**\n" ++
  "Based on your recent practice sessions, you're showing strong mathematical reasoning but need to focus on accuracy in algebraic manipulation and careful attention to detail.\n" ++
  "\n" ++
  "**Algebra:**\n" ++
  "- **Mistake Pattern**: Sign errors when rearranging equations\n" ++
  "- **Remember**: \"When moving terms across the equals sign, flip the sign - positive becomes negative, negative becomes positive\"\n" ++
  "- **Next Steps**: Practice 10 simple rearrangement problems daily, checking each step\n" ++
  "\n" ++
  "**Key Reminders:**\n" ++
  "• Always double-check sign changes when rearranging equations\n" ++
  "• Show all working steps to catch errors early\n" ++
  "• Take time to verify final answers by substitution\n" ++
  "\n" ++
  "**Strengths to Build On:**\n" ++
  "• Strong understanding of mathematical concepts\n" ++
  "• Good problem-solving approach\n" ++
  "\n" ++
  "Remember: Every mistake is a step toward mastery. Focus on understanding why each error occurred rather than just getting the right answer.\n" ++
  ""
/-- The `/generate-report` handler `generate_report` (backend.py lines
229-335), returning the value placed in `ReportResponse.report`; an
exception that escapes the handler is an `Except.error`. -/
def generate_report (bedrock : Option BedrockClient) (attempts : List Attempt) :
    Except String PyVal :=
  match format_attempts_for_ai attempts with
  | Except.error e => Except.error e
  | Except.ok formatted_attempts =>
    let ai_response : PyVal :=
      match bedrock with
      | Option.none => PyVal.none
      | Option.some _ =>
        generate_ai_response bedrock system_prompt formatted_attempts default_model_id
    if truthy ai_response then Except.ok ai_response
    else Except.ok (PyVal.str (fallback_report attempts))

/-- Whether a value is a Python dict. -/
def isDictVal : PyVal → Bool
  | PyVal.dict _ => true
  | _ => false

/-- The count used by the specification's words for the formatter: attempts
whose `error_type` field is present (the key exists) and whose value is not
the string `none`. Stated from the spec sentence, to be compared with the
code's `includeAttempt` guard. -/
def spec_count_present_not_none (attempts : List Attempt) : Nat :=
  attempts.countP (fun attempt =>
    (lookupKey attempt "error_type").isSome &&
      !(pyEqStr (dGet attempt "error_type" PyVal.none) "none"))

/-- The four-attempt list of the specification's count-correctness example. -/
def exampleCounts : List Attempt :=
  [[("error_type", PyVal.str "silly")], [("error_type", PyVal.str "silly")],
   [("error_type", PyVal.str "concept")], [("error_type", PyVal.str "none")]]

/-- A client whose converse call always raises a transport error. -/
def failingClient : BedrockClient := ⟨fun _ _ => Except.error "EndpointConnectionError"⟩

/-- A client whose converse call returns a malformed (empty) response object. -/
def malformedClient : BedrockClient := ⟨fun _ _ => Except.ok (PyVal.dict [])⟩

/-- A client that replies with a well-formed response whose text is "X". -/
def okClient : BedrockClient :=
  ⟨fun _ _ => Except.ok (PyVal.dict [("output", PyVal.dict [("message", PyVal.dict
    [("content", PyVal.list [PyVal.dict [("text", PyVal.str "X")]])])])])⟩

/-- A client replying with two text segments, to exercise "first segment". -/
def twoSegmentClient : BedrockClient :=
  ⟨fun _ _ => Except.ok (PyVal.dict [("output", PyVal.dict [("message", PyVal.dict
    [("content", PyVal.list [PyVal.dict [("text", PyVal.str "first")],
      PyVal.dict [("text", PyVal.str "second")]])])])])⟩

/-- Helper: a successful run of the formatter loop pairs the qualifying
attempts, in input order, with their emitted blocks. -/
theorem formatBlocks_forall2 (attempts : List Attempt) (blocks : List String)
    (h : formatBlocks attempts = Except.ok blocks) :
    List.Forall₂ (fun attempt block => attemptBlock attempt = Except.ok block)
      (attempts.filter includeAttempt) blocks := by
  induction attempts generalizing blocks with
  | nil =>
    cases h
    exact List.Forall₂.nil
  | cons a rest ih =>
    rw [formatBlocks] at h
    cases hinc : includeAttempt a with
    | false =>
      simp only [hinc, Bool.false_eq_true, if_false] at h
      simpa [List.filter_cons, hinc] using ih blocks h
    | true =>
      simp only [hinc, if_true] at h
      cases hb : attemptBlock a with
      | error e => rw [hb] at h; cases h
      | ok block =>
        rw [hb] at h
        cases hr : formatBlocks rest with
        | error e => rw [hr] at h; cases h
        | ok bs =>
          rw [hr] at h
          cases h
          simp only [List.filter_cons, hinc, if_true]
          exact List.Forall₂.cons hb (ih bs hr)

/-- C3 (amended): on a successful run of the formatter, the number of
emitted per-mistake blocks equals the number of attempts whose
`error_type` value is truthy (present, not null, not another falsy value)
and not equal to the string `none` — the code's loop guard. -/
theorem formatter_block_count (attempts : List Attempt) (blocks : List String)
    (h : formatBlocks attempts = Except.ok blocks) :
    blocks.length = attempts.countP includeAttempt := by
  rw [List.countP_eq_length_filter]
  exact (List.Forall₂.length_eq (formatBlocks_forall2 attempts blocks h)).symm

/-- C3, counterexample to the claim as stated: one attempt whose
`error_type` field is present (holding null) and not equal to the string
`none`, so the claimed count is 1, yet the formatter emits no block. -/
theorem formatter_block_count_cex :
    formatBlocks [[("error_type", PyVal.none)]] = Except.ok [] ∧
    spec_count_present_not_none [[("error_type", PyVal.none)]] = 1 :=
  ⟨rfl, rfl⟩

/-- C3, witness: a concrete two-attempt list with one qualifying attempt. -/
theorem formatter_block_count_witness :
    (["\nTopic - Unknown\nMistake Type - silly\nExplanation - No explanation provided\nQuestion ID - Unknown\n"] : List String).length =
      List.countP includeAttempt
        [[("error_type", PyVal.str "none")], [("error_type", PyVal.str "silly")]] :=
  formatter_block_count
    [[("error_type", PyVal.str "none")], [("error_type", PyVal.str "silly")]]
    ["\nTopic - Unknown\nMistake Type - silly\nExplanation - No explanation provided\nQuestion ID - Unknown\n"]
    rfl

/-- C4: formatting a list in which every attempt's `error_type` is absent,
null, or the string `none` (the first two both make `get` yield Python
None) returns exactly the fixed no-mistakes sentence. -/
theorem formatter_empty_sentinel (attempts : List Attempt)
    (h : ∀ attempt ∈ attempts, dGet attempt "error_type" PyVal.none = PyVal.none ∨
      dGet attempt "error_type" PyVal.none = PyVal.str "none") :
    format_attempts_for_ai attempts = Except.ok no_mistakes_message := by
  have hb : formatBlocks attempts = Except.ok [] := by
    induction attempts with
    | nil => rfl
    | cons a rest ih =>
      have hinc : includeAttempt a = false := by
        unfold includeAttempt
        rcases h a (List.mem_cons_self a rest) with ha | ha <;> rw [ha] <;> rfl
      rw [formatBlocks]
      simp only [hinc, Bool.false_eq_true, if_false]
      exact ih (fun x hx => h x (List.mem_cons_of_mem a hx))
  simp [format_attempts_for_ai, hb]

/-- C4, witness: a mixed concrete list (value `none`, value null, key
absent) formats to the sentence. -/
theorem formatter_empty_sentinel_witness :
    format_attempts_for_ai
      [[("error_type", PyVal.str "none")], [("error_type", PyVal.none)], []] =
      Except.ok no_mistakes_message :=
  formatter_empty_sentinel _ (by
    intro attempt ha
    simp only [List.mem_cons, List.not_mem_nil, or_false] at ha
    rcases ha with rfl | rfl | rfl
    · exact Or.inr rfl
    · exact Or.inl rfl
    · exact Or.inl rfl)

/-- C9: an attempt whose `explanation` key is present but holds null
renders the Explanation line with the literal text `None`, not with the
default `No explanation provided`: the default applies only when the key
is absent. -/
theorem explanation_null_renders_none (attempt : Attempt) (topic : PyVal)
    (hexpl : lookupKey attempt "explanation" = Option.some PyVal.none)
    (htopic : attemptTopic attempt = Except.ok topic) :
    attemptExplanation attempt = PyVal.none ∧
    pyStr (attemptExplanation attempt) = "None" ∧
    pyStr (attemptExplanation attempt) ≠ "No explanation provided" ∧
    attemptBlock attempt = Except.ok ("\nTopic - " ++ pyStr topic ++
      "\nMistake Type - " ++ pyStr (attemptErrorType attempt) ++
      "\nExplanation - " ++ "None" ++
      "\nQuestion ID - " ++ pyStr (attemptQuestionId attempt) ++ "\n") := by
  have he : attemptExplanation attempt = PyVal.none := by
    unfold attemptExplanation dGet
    rw [hexpl]
  refine ⟨he, by rw [he]; rfl, by rw [he]; decide, ?_⟩
  unfold attemptBlock
  rw [htopic, he]
  rfl

/-- C9, witness: a concrete attempt with a null explanation. -/
theorem explanation_null_renders_none_witness :
    attemptBlock [("error_type", PyVal.str "silly"), ("explanation", PyVal.none),
        ("question_id", PyVal.int 15)] =
      Except.ok ("\nTopic - " ++ pyStr (PyVal.str "Unknown") ++
        "\nMistake Type - " ++ pyStr (attemptErrorType
          [("error_type", PyVal.str "silly"), ("explanation", PyVal.none),
            ("question_id", PyVal.int 15)]) ++
        "\nExplanation - " ++ "None" ++
        "\nQuestion ID - " ++ pyStr (attemptQuestionId
          [("error_type", PyVal.str "silly"), ("explanation", PyVal.none),
            ("question_id", PyVal.int 15)]) ++ "\n") :=
  (explanation_null_renders_none
    [("error_type", PyVal.str "silly"), ("explanation", PyVal.none),
      ("question_id", PyVal.int 15)]
    (PyVal.str "Unknown") rfl rfl).2.2.2

/-- C10: an attempt whose `error_type` key is present but holds a falsy
value other than null, such as the empty string, is excluded from the
formatted blocks: inclusion is decided by the truthiness of the value,
not by key presence. -/
theorem error_type_falsy_excluded (attempt : Attempt) (v : PyVal)
    (rest : List Attempt)
    (hpresent : lookupKey attempt "error_type" = Option.some v)
    (hfalsy : truthy v = false) :
    includeAttempt attempt = false ∧
    formatBlocks (attempt :: rest) = formatBlocks rest := by
  have hd : dGet attempt "error_type" PyVal.none = v := by
    unfold dGet; rw [hpresent]
  have hinc : includeAttempt attempt = false := by
    unfold includeAttempt
    rw [hd, hfalsy, Bool.false_and]
  refine ⟨hinc, ?_⟩
  rw [formatBlocks]
  simp only [hinc, Bool.false_eq_true, if_false]

/-- C10, witness: the empty-string error type is present yet excluded. -/
theorem error_type_falsy_excluded_witness :
    includeAttempt [("error_type", PyVal.str "")] = false ∧
    formatBlocks [[("error_type", PyVal.str "")], [("error_type", PyVal.str "concept")]] =
      formatBlocks [[("error_type", PyVal.str "concept")]] :=
  error_type_falsy_excluded [("error_type", PyVal.str "")] (PyVal.str "")
    [[("error_type", PyVal.str "concept")]] rfl rfl

/-- C5: the fallback report is the fixed template with exactly the three
integers interpolated — the length of the attempt list, the number of
attempts whose `error_type` equals `silly`, and the number whose
`error_type` equals `concept`; an attempt whose `error_type` is `none`
(or yields Python None, i.e. is absent or null) raises the total but
neither category count. -/
theorem fallback_report_counts (attempts : List Attempt) :
    fallback_report attempts =
      fallbackTemplate attempts.length (silly_mistakes attempts) (concept_errors attempts) ∧
    silly_mistakes attempts =
      (attempts.filter
        (fun attempt => pyEqStr (dGet attempt "error_type" PyVal.none) "silly")).length ∧
    concept_errors attempts =
      (attempts.filter
        (fun attempt => pyEqStr (dGet attempt "error_type" PyVal.none) "concept")).length ∧
    ∀ attempt : Attempt,
      (dGet attempt "error_type" PyVal.none = PyVal.none ∨
        dGet attempt "error_type" PyVal.none = PyVal.str "none") →
      silly_mistakes (attempt :: attempts) = silly_mistakes attempts ∧
      concept_errors (attempt :: attempts) = concept_errors attempts ∧
      (attempt :: attempts).length = attempts.length + 1 := by
  refine ⟨rfl, by simp [silly_mistakes, List.countP_eq_length_filter],
    by simp [concept_errors, List.countP_eq_length_filter], ?_⟩
  intro attempt hv
  have hs : pyEqStr (dGet attempt "error_type" PyVal.none) "silly" = false := by
    rcases hv with hv | hv <;> rw [hv] <;> rfl
  have hc : pyEqStr (dGet attempt "error_type" PyVal.none) "concept" = false := by
    rcases hv with hv | hv <;> rw [hv] <;> rfl
  refine ⟨?_, ?_, rfl⟩
  · simp [silly_mistakes, List.countP_cons, hs]
  · simp [concept_errors, List.countP_cons, hc]

/-- C5, witness: the specification's four-attempt example embeds total 4,
silly 2, concept 1, and prepending a `none` attempt leaves the silly count
unchanged. -/
theorem fallback_report_counts_witness :
    fallback_report exampleCounts = fallbackTemplate 4 2 1 ∧
    silly_mistakes ([("error_type", PyVal.str "none")] :: exampleCounts) =
      silly_mistakes exampleCounts := by
  have h := fallback_report_counts exampleCounts
  exact ⟨h.1.trans rfl,
    (h.2.2.2 [("error_type", PyVal.str "none")] (Or.inr rfl)).1⟩

/-- C6: on a successful formatter run the emitted blocks pair up, in input
order, with the qualifying attempts; each block consists of the four
labelled lines Topic, Mistake Type, Explanation, Question ID in that
order, wrapped in newlines so that joining with a newline separates
blocks by blank lines; a missing question object or missing topic renders
the literal `Unknown`, a missing error type renders `Unknown`, and a
missing explanation renders `No explanation provided`. -/
theorem formatter_block_structure (attempts : List Attempt) (blocks : List String)
    (h : formatBlocks attempts = Except.ok blocks) :
    List.Forall₂ (fun attempt block => attemptBlock attempt = Except.ok block)
      (attempts.filter includeAttempt) blocks ∧
    (∀ (attempt : Attempt) (topic : PyVal), attemptTopic attempt = Except.ok topic →
      attemptBlock attempt = Except.ok ("\nTopic - " ++ pyStr topic ++
        "\nMistake Type - " ++ pyStr (attemptErrorType attempt) ++
        "\nExplanation - " ++ pyStr (attemptExplanation attempt) ++
        "\nQuestion ID - " ++ pyStr (attemptQuestionId attempt) ++ "\n")) ∧
    (∀ attempt : Attempt, lookupKey attempt "question" = Option.none →
      attemptTopic attempt = Except.ok (PyVal.str "Unknown")) ∧
    (∀ (attempt : Attempt) (q : List (String × PyVal)),
      lookupKey attempt "question" = Option.some (PyVal.dict q) →
      lookupKey q "topic" = Option.none →
      attemptTopic attempt = Except.ok (PyVal.str "Unknown")) ∧
    (∀ attempt : Attempt, lookupKey attempt "error_type" = Option.none →
      pyStr (attemptErrorType attempt) = "Unknown") ∧
    (∀ attempt : Attempt, lookupKey attempt "explanation" = Option.none →
      pyStr (attemptExplanation attempt) = "No explanation provided") ∧
    (blocks ≠ [] →
      format_attempts_for_ai attempts = Except.ok (String.intercalate "\n" blocks)) := by
  refine ⟨formatBlocks_forall2 attempts blocks h, ?_, ?_, ?_, ?_, ?_, ?_⟩
  · intro attempt topic htopic
    unfold attemptBlock
    rw [htopic]
  · intro attempt hq
    unfold attemptTopic dGet
    rw [hq]
    rfl
  · intro attempt q hq ht
    have hd : dGet attempt "question" (PyVal.dict []) = PyVal.dict q := by
      unfold dGet; rw [hq]
    unfold attemptTopic
    rw [hd]
    show Except.ok (dGet q "topic" (PyVal.str "Unknown")) = Except.ok (PyVal.str "Unknown")
    unfold dGet
    rw [ht]
  · intro attempt he
    unfold attemptErrorType dGet
    rw [he]
    rfl
  · intro attempt he
    unfold attemptExplanation dGet
    rw [he]
    rfl
  · intro hne
    rw [format_attempts_for_ai, h]
    simp [hne]

/-- C6, witness: two qualifying attempts, the first with question and
explanation data, the second with both absent. -/
theorem formatter_block_structure_witness :
    List.Forall₂ (fun attempt block => attemptBlock attempt = Except.ok block)
      (List.filter includeAttempt
        [[("error_type", PyVal.str "silly"),
          ("question", PyVal.dict [("topic", PyVal.str "Algebra")]),
          ("explanation", PyVal.str "sign error"), ("question_id", PyVal.int 15)],
         [("error_type", PyVal.str "concept")]])
      ["\nTopic - Algebra\nMistake Type - silly\nExplanation - sign error\nQuestion ID - 15\n",
       "\nTopic - Unknown\nMistake Type - concept\nExplanation - No explanation provided\nQuestion ID - Unknown\n"] ∧
    format_attempts_for_ai
      [[("error_type", PyVal.str "silly"),
        ("question", PyVal.dict [("topic", PyVal.str "Algebra")]),
        ("explanation", PyVal.str "sign error"), ("question_id", PyVal.int 15)],
       [("error_type", PyVal.str "concept")]] =
      Except.ok (String.intercalate "\n"
        ["\nTopic - Algebra\nMistake Type - silly\nExplanation - sign error\nQuestion ID - 15\n",
         "\nTopic - Unknown\nMistake Type - concept\nExplanation - No explanation provided\nQuestion ID - Unknown\n"]) := by
  have h := formatter_block_structure
    [[("error_type", PyVal.str "silly"),
      ("question", PyVal.dict [("topic", PyVal.str "Algebra")]),
      ("explanation", PyVal.str "sign error"), ("question_id", PyVal.int 15)],
     [("error_type", PyVal.str "concept")]]
    ["\nTopic - Algebra\nMistake Type - silly\nExplanation - sign error\nQuestion ID - 15\n",
     "\nTopic - Unknown\nMistake Type - concept\nExplanation - No explanation provided\nQuestion ID - Unknown\n"]
    rfl
  exact ⟨h.1, h.2.2.2.2.2.2 (by simp)⟩

/-- C7: the client adapter returns the unavailable signal (Python None)
when no client is configured, when the converse call raises, and when the
response extraction raises; and whenever the adapter signals None, the
orchestrator produces exactly what it produces with no client configured. -/
theorem generation_fails_softly (sp um mid e : String) (client : BedrockClient)
    (attempts : List Attempt) :
    generate_ai_response Option.none sp um mid = PyVal.none ∧
    (client.converse mid (buildMessages sp um) = Except.error e →
      generate_ai_response (Option.some client) sp um mid = PyVal.none) ∧
    (∀ response : PyVal, client.converse mid (buildMessages sp um) = Except.ok response →
      extractText response = Except.error e →
      generate_ai_response (Option.some client) sp um mid = PyVal.none) ∧
    (∀ (bedrock : Option BedrockClient) (formatted : String),
      format_attempts_for_ai attempts = Except.ok formatted →
      generate_ai_response bedrock system_prompt formatted default_model_id = PyVal.none →
      generate_report bedrock attempts = generate_report Option.none attempts) := by
  refine ⟨rfl, ?_, ?_, ?_⟩
  · intro hconv
    rw [generate_ai_response, hconv]
  · intro response hconv hext
    rw [generate_ai_response, hconv]
    simp only [hext]
  · intro bedrock formatted hfmt hai
    cases bedrock with
    | none => rfl
    | some c =>
      simp only [generate_report, hfmt]
      rw [hai]

/-- C7, witness: the unconfigured client, a raising converse call and a
malformed response all yield None, and with the raising client the
orchestrator's output equals the no-client output. -/
theorem generation_fails_softly_witness :
    generate_ai_response Option.none "s" "u" default_model_id = PyVal.none ∧
    generate_ai_response (Option.some failingClient) "s" "u" default_model_id = PyVal.none ∧
    generate_ai_response (Option.some malformedClient) "s" "u" default_model_id = PyVal.none ∧
    generate_report (Option.some failingClient) exampleCounts =
      generate_report Option.none exampleCounts :=
  ⟨(generation_fails_softly "s" "u" default_model_id "x" failingClient []).1,
   (generation_fails_softly "s" "u" default_model_id "EndpointConnectionError"
      failingClient []).2.1 rfl,
   (generation_fails_softly "s" "u" default_model_id "KeyError"
      malformedClient []).2.2.1 (PyVal.dict []) rfl rfl,
   (generation_fails_softly "s" "u" default_model_id "x" failingClient
      exampleCounts).2.2.2 (Option.some failingClient) _ rfl rfl⟩

/-- C8: the adapter sends a single-turn conversation of exactly one
message whose text content is the system prompt, two newlines, the
literal prefix `User: `, and the user message; on success it returns the
first text segment of the reply. -/
theorem generation_message_shape (sp um mid : String) (client : BedrockClient) :
    buildMessages sp um = PyVal.list [PyVal.dict [("role", PyVal.str "user"),
      ("content", PyVal.list [PyVal.dict [("text",
        PyVal.str (sp ++ "\n\nUser: " ++ um))]])]] ∧
    (∀ (response t : PyVal),
      client.converse mid (buildMessages sp um) = Except.ok response →
      extractText response = Except.ok t →
      generate_ai_response (Option.some client) sp um mid = t) ∧
    (∀ (restSegs : List PyVal) (extra : List (String × PyVal)) (t : PyVal),
      client.converse mid (buildMessages sp um) =
        Except.ok (PyVal.dict [("output", PyVal.dict [("message", PyVal.dict
          [("content", PyVal.list (PyVal.dict (("text", t) :: extra) :: restSegs))])])]) →
      generate_ai_response (Option.some client) sp um mid = t) := by
  refine ⟨rfl, ?_, ?_⟩
  · intro response t hconv hext
    rw [generate_ai_response, hconv]
    simp only [hext]
  · intro restSegs extra t hconv
    rw [generate_ai_response, hconv]
    rfl

/-- C8, witness: with a two-segment reply the adapter returns the first
segment's text. -/
theorem generation_message_shape_witness :
    generate_ai_response (Option.some twoSegmentClient) "sys" "usr" default_model_id =
      PyVal.str "first" :=
  (generation_message_shape "sys" "usr" default_model_id twoSegmentClient).2.2
    [PyVal.dict [("text", PyVal.str "second")]] [] (PyVal.str "first") rfl

/-- C1 (amended): whenever the formatter succeeds on the attempt list, the
orchestrator returns the client's text exactly when a client is configured
and its adapter yields a non-empty string, and returns exactly the
fallback report when no client is configured or the adapter yields None or
the empty string. -/
theorem generate_report_precedence (bedrock : Option BedrockClient)
    (attempts : List Attempt) (formatted : String)
    (hfmt : format_attempts_for_ai attempts = Except.ok formatted) :
    (∀ s : String, bedrock ≠ Option.none →
      generate_ai_response bedrock system_prompt formatted default_model_id = PyVal.str s →
      s ≠ "" →
      generate_report bedrock attempts = Except.ok (PyVal.str s)) ∧
    ((bedrock = Option.none ∨
        generate_ai_response bedrock system_prompt formatted default_model_id = PyVal.none ∨
        generate_ai_response bedrock system_prompt formatted default_model_id =
          PyVal.str "") →
      generate_report bedrock attempts =
        Except.ok (PyVal.str (fallback_report attempts))) := by
  cases bedrock with
  | none =>
    refine ⟨fun s hb => absurd rfl hb, fun _ => ?_⟩
    simp only [generate_report, hfmt]
    rfl
  | some client =>
    constructor
    · intro s _ hai hs
      simp only [generate_report, hfmt]
      rw [hai]
      have ht : truthy (PyVal.str s) = true := by
        simp [truthy, hs]
      rw [ht]
      rfl
    · intro hor
      rcases hor with hb | hai | hai
      · exact absurd hb (by simp)
      · simp only [generate_report, hfmt]
        rw [hai]
        rfl
      · simp only [generate_report, hfmt]
        rw [hai]
        rfl

/-- C1, counterexample to the claim as stated: with no client configured
and an attempt whose `error_type` qualifies it but whose `question` key
holds null, the handler raises an `AttributeError` instead of returning
the fallback report. -/
theorem generate_report_precedence_cex :
    generate_report Option.none
      [[("error_type", PyVal.str "silly"), ("question", PyVal.none)]] =
      Except.error "AttributeError" := rfl

/-- C1, witness: a configured client whose reply text is "X" wins over the
fallback, and with no client the fallback report is returned verbatim. -/
theorem generate_report_precedence_witness :
    generate_report (Option.some okClient) [] = Except.ok (PyVal.str "X") ∧
    generate_report Option.none exampleCounts =
      Except.ok (PyVal.str (fallback_report exampleCounts)) :=
  ⟨(generate_report_precedence (Option.some okClient) [] no_mistakes_message rfl).1
      "X" (by simp) rfl (by decide),
   (generate_report_precedence Option.none exampleCounts
      (String.intercalate "\n"
        ["\nTopic - Unknown\nMistake Type - silly\nExplanation - No explanation provided\nQuestion ID - Unknown\n",
         "\nTopic - Unknown\nMistake Type - silly\nExplanation - No explanation provided\nQuestion ID - Unknown\n",
         "\nTopic - Unknown\nMistake Type - concept\nExplanation - No explanation provided\nQuestion ID - Unknown\n"])
      rfl).2 (Or.inl rfl)⟩

/-- Helper: the formatter loop completes without an exception when every
qualifying attempt's `question` key, if present, holds a dict. -/
theorem formatBlocks_total (attempts : List Attempt)
    (h : ∀ attempt ∈ attempts, includeAttempt attempt = true →
      isDictVal (dGet attempt "question" (PyVal.dict [])) = true) :
    ∃ blocks, formatBlocks attempts = Except.ok blocks := by
  induction attempts with
  | nil => exact ⟨[], rfl⟩
  | cons a rest ih =>
    obtain ⟨bs, hbs⟩ := ih (fun x hx hinc => h x (List.mem_cons_of_mem a hx) hinc)
    cases hinc : includeAttempt a with
    | false =>
      refine ⟨bs, ?_⟩
      rw [formatBlocks]
      simp only [hinc, Bool.false_eq_true, if_false]
      exact hbs
    | true =>
      have hq := h a (List.mem_cons_self a rest) hinc
      obtain ⟨t, htopic⟩ : ∃ t, attemptTopic a = Except.ok t := by
        unfold attemptTopic
        cases hd : dGet a "question" (PyVal.dict []) with
        | dict d => exact ⟨dGet d "topic" (PyVal.str "Unknown"), rfl⟩
        | none => rw [hd] at hq; cases hq
        | str s => rw [hd] at hq; cases hq
        | int n => rw [hd] at hq; cases hq
        | bool b => rw [hd] at hq; cases hq
        | list xs => rw [hd] at hq; cases hq
      have hab : attemptBlock a = Except.ok ("\nTopic - " ++ pyStr t ++
          "\nMistake Type - " ++ pyStr (attemptErrorType a) ++
          "\nExplanation - " ++ pyStr (attemptExplanation a) ++
          "\nQuestion ID - " ++ pyStr (attemptQuestionId a) ++ "\n") := by
        unfold attemptBlock
        rw [htopic]
      refine ⟨("\nTopic - " ++ pyStr t ++
          "\nMistake Type - " ++ pyStr (attemptErrorType a) ++
          "\nExplanation - " ++ pyStr (attemptExplanation a) ++
          "\nQuestion ID - " ++ pyStr (attemptQuestionId a) ++ "\n") :: bs, ?_⟩
      rw [formatBlocks]
      simp only [hinc, if_true, hab, hbs]

/-- C2 (amended): for every attempt list in which no qualifying attempt has
a `question` key holding a non-dict value, the formatter and the handler
return normally; the formatter substitutes defaults only for keys that are
absent from the dict. -/
theorem generate_report_total_wellformed (attempts : List Attempt)
    (h : ∀ attempt ∈ attempts, includeAttempt attempt = true →
      isDictVal (dGet attempt "question" (PyVal.dict [])) = true) :
    (∃ text, format_attempts_for_ai attempts = Except.ok text) ∧
    ∀ bedrock : Option BedrockClient,
      ∃ report, generate_report bedrock attempts = Except.ok report := by
  obtain ⟨blocks, hbs⟩ := formatBlocks_total attempts h
  have hfmt : ∃ text, format_attempts_for_ai attempts = Except.ok text := by
    rw [format_attempts_for_ai, hbs]
    cases he : blocks.isEmpty with
    | true => exact ⟨no_mistakes_message, by simp [he]⟩
    | false => exact ⟨String.intercalate "\n" blocks, by simp [he]⟩
  obtain ⟨text, htext⟩ := hfmt
  refine ⟨⟨text, htext⟩, ?_⟩
  intro bedrock
  simp only [generate_report, htext]
  split
  · exact ⟨_, rfl⟩
  · exact ⟨_, rfl⟩

/-- C2, counterexample to the claim as stated: the formatter raises an
`AttributeError` on an attempt whose `question` field is present but null
(and whose error type qualifies it), rather than substituting a default. -/
theorem formatter_raises_cex :
    format_attempts_for_ai
      [[("error_type", PyVal.str "concept"), ("question", PyVal.none)]] =
      Except.error "AttributeError" := rfl

/-- C2, witness: a list mixing a fully-populated mistake, a bare mistake
and an excluded attempt formats and reports without an exception. -/
theorem generate_report_total_wellformed_witness :
    (∃ text, format_attempts_for_ai
      [[("error_type", PyVal.str "silly"),
        ("question", PyVal.dict [("topic", PyVal.str "Algebra")])],
       [("error_type", PyVal.str "concept")],
       [("error_type", PyVal.str "none"), ("question", PyVal.none)]] =
        Except.ok text) ∧
    ∃ report, generate_report Option.none
      [[("error_type", PyVal.str "silly"),
        ("question", PyVal.dict [("topic", PyVal.str "Algebra")])],
       [("error_type", PyVal.str "concept")],
       [("error_type", PyVal.str "none"), ("question", PyVal.none)]] =
        Except.ok report := by
  have h := generate_report_total_wellformed
    [[("error_type", PyVal.str "silly"),
      ("question", PyVal.dict [("topic", PyVal.str "Algebra")])],
     [("error_type", PyVal.str "concept")],
     [("error_type", PyVal.str "none"), ("question", PyVal.none)]]
    (by decide)
  exact ⟨h.1, h.2 Option.none⟩
